import Mathlib

/-
  Verification of the IPC engine contract implied by
  src/ipc-unittest/main/main.c (a Trusty IPC unit-test client).

  The repository contains only the test client; the IPC engine itself
  (handle table, port registry, channels, message queues, wait subsystem)
  lives in a kernel that is not part of the repository.  The engine is
  therefore modelled here from the specification, and each definition
  that embeds a missing engine operation carries a doc comment starting
  with "Modelled from the spec:".  The constants below, and the concrete
  call sequences used in the theorems, are taken from main.c itself.
-/

namespace IpcUnittest

/- Limits, from main.c lines 27-30 (in sync with kernel settings). -/

def MAX_USER_HANDLES : Nat := 64

def MAX_PORT_PATH_LEN : Nat := 64

def MAX_PORT_BUF_NUM : Nat := 32

def MAX_PORT_BUF_SIZE : Nat := 512

/- Return codes.  main.c uses symbolic names from a header that is not
   part of the repository; only their distinctness and sign matter for
   the tests.  Modelled from the spec: each failure kind is a distinct
   negative discriminated result code, success values are >= 0. -/

def NO_ERROR : Int := 0

def INVALID_IPC_HANDLE : Int := -1

def ERR_NOT_FOUND : Int := -2

def ERR_NO_MSG : Int := -4

def ERR_INVALID_ARGS : Int := -8

def ERR_NOT_ENOUGH_BUFFER : Int := -9

def ERR_TIMED_OUT : Int := -13

def ERR_ALREADY_EXISTS : Int := -14

def ERR_CHANNEL_CLOSED : Int := -15

def ERR_NOT_SUPPORTED : Int := -24

def ERR_NO_RESOURCES : Int := -25

def ERR_FAULT : Int := -33

def ERR_BAD_HANDLE : Int := -40

/- Event bits delivered in uevent_t.  Modelled from the spec: three
   combinable readiness bits (connection-ready, peer-closed, message). -/

def IPC_HANDLE_POLL_READY : Nat := 1

def IPC_HANDLE_POLL_HUP : Nat := 4

def IPC_HANDLE_POLL_MSG : Nat := 8

/-- A message queued on a channel: a queue-scoped id, the payload bytes,
and whether the id has been handed to the caller by `get_msg`
(`retrieved`), making it readable until `put_msg` releases it. -/
structure Msg where
  id : Nat
  data : List Nat
  retrieved : Bool
  deriving DecidableEq

/-- One endpoint of a channel as seen by the calling task.
`inbound` is the queue of pending inbound messages (oldest first),
`outbound` the payloads sent and not yet consumed by the peer,
`sendBudget` the remaining per-port buffer budget for sends,
`nextId` the next fresh message id. -/
structure Chan where
  inbound : List Msg
  outbound : List (List Nat)
  sendBudget : Nat
  peerClosed : Bool
  nextId : Nat
  deriving DecidableEq

/-- A connection queued on a port, not yet accepted.  `closedByPeer`
records that the connecting side already abandoned it. -/
structure PendingConn where
  closedByPeer : Bool
  deriving DecidableEq

/-- A named port endpoint with its configuration and the queue of
pending incoming connections. -/
structure Port where
  path : String
  numBufs : Nat
  bufSize : Nat
  pending : List PendingConn
  deriving DecidableEq

/-- A kernel object owned by a handle: a port or a channel. -/
inductive Obj where
  | port (p : Port)
  | chan (c : Chan)
  deriving DecidableEq

/-- A handle-table slot: the owned object plus the opaque cookie. -/
structure Slot where
  obj : Obj
  cookie : Int
  deriving DecidableEq

/-- A service port registered by another task (e.g. the `datasink` or
`echo` services the tests connect to), visible in the registry. -/
structure ExtPort where
  path : String
  numBufs : Nat
  deriving DecidableEq

/-- Kernel state relevant to the calling task: its handle table
(`MAX_USER_HANDLES` slots) plus the paths other tasks registered. -/
structure KState where
  table : List (Option Slot)
  extPorts : List ExtPort
  deriving DecidableEq

def initTable : List (Option Slot) := List.replicate MAX_USER_HANDLES none

/-- Fill a buffer with the incremental pattern of main.c's
`fill_test_buf` (byte i is `seed + i` mod 256). -/
def fill_test_buf (cnt seed : Nat) : List Nat :=
  (List.range cnt).map (fun i => (seed + i) % 256)

/-- Modelled from the spec: handle lookup in the per-task handle table.
Out-of-range values (negative or >= `MAX_USER_HANDLES`) fail
`ERR_BAD_HANDLE`; in-range but unallocated slots fail `ERR_NOT_FOUND`. -/
def lookupSlot (s : KState) (h : Int) : Except Int Slot :=
  if h < 0 ∨ (MAX_USER_HANDLES : Int) ≤ h then .error ERR_BAD_HANDLE
  else
    match s.table.getD h.toNat none with
    | none => .error ERR_NOT_FOUND
    | some sl => .ok sl

/-- Lowest free handle-table slot, if any. -/
def freeSlotIdx (s : KState) : Option Nat :=
  (List.range MAX_USER_HANDLES).find? (fun i => (s.table.getD i none).isNone)

/-- Modelled from the spec: handle allocation picks the lowest free slot
or fails (None) when the table is full. -/
def allocSlot (s : KState) (sl : Slot) : Option (Nat × KState) :=
  match freeSlotIdx s with
  | none => none
  | some i => some (i, { s with table := s.table.set i (some sl) })

/-- Does slot `i` hold a port registered under path `p`? -/
def isPortAt (s : KState) (i : Nat) (p : String) : Bool :=
  match s.table.getD i none with
  | some sl =>
    match sl.obj with
    | .port pr => pr.path = p
    | .chan _ => false
  | none => false

/-- Is path `p` registered in the process-wide registry (a port of this
task or of another task)? -/
def pathRegistered (s : KState) (p : String) : Bool :=
  s.extPorts.any (fun e => e.path = p) ||
    (List.range MAX_USER_HANDLES).any (fun i => isPortAt s i p)

/-- Handle of this task's own port registered under `p`, if any. -/
def findOwnPortIdx (s : KState) (p : String) : Option Nat :=
  (List.range MAX_USER_HANDLES).find? (fun i => isPortAt s i p)

def getChan (s : KState) (i : Nat) : Option Chan :=
  match s.table.getD i none with
  | some sl =>
    match sl.obj with
    | .chan c => some c
    | .port _ => none
  | none => none

def setChan (s : KState) (i : Nat) (c : Chan) : KState :=
  match s.table.getD i none with
  | some sl => { s with table := s.table.set i (some { sl with obj := .chan c }) }
  | none => s

def setPortPending (s : KState) (i : Nat) (ps : List PendingConn) : KState :=
  match s.table.getD i none with
  | some sl =>
    match sl.obj with
    | .port pr =>
      { s with table := s.table.set i (some { sl with obj := .port { pr with pending := ps } }) }
    | .chan _ => s
  | none => s

/-- Append an abandoned pending connection to the port in slot `i`. -/
def addPending (s : KState) (i : Nat) : KState :=
  match s.table.getD i none with
  | some sl =>
    match sl.obj with
    | .port pr => setPortPending s i (pr.pending ++ [{ closedByPeer := true }])
    | .chan _ => s
  | none => s

/-- Oldest inbound message not yet handed out by `get_msg`. -/
def firstUnretrieved (c : Chan) : Option Msg :=
  c.inbound.find? (fun m => !m.retrieved)

/-- The message currently held by the caller under id `j`, if any:
present in the inbound queue and retrieved via `get_msg`. -/
def findHeld (c : Chan) (j : Nat) : Option Msg :=
  c.inbound.find? (fun m => m.id == j && m.retrieved)

def markRetrieved (c : Chan) (j : Nat) : Chan :=
  { c with inbound := c.inbound.map (fun m => if m.id = j then { m with retrieved := true } else m) }

def removeMsg (c : Chan) (j : Nat) : Chan :=
  { c with inbound := c.inbound.filter (fun m => m.id ≠ j) }

/-- Enqueue a sent payload, consuming one unit of send budget. -/
def chanSend (c : Chan) (d : List Nat) : Chan :=
  { c with outbound := c.outbound ++ [d], sendBudget := c.sendBudget - 1 }

/-- Peer (echo service) step: consume the oldest sent payload and
enqueue it back as an inbound message with a fresh id. -/
def chanDeliver (c : Chan) : Chan :=
  match c.outbound with
  | [] => c
  | d :: rest =>
    { c with
      outbound := rest
      inbound := c.inbound ++ [{ id := c.nextId, data := d, retrieved := false }]
      nextId := c.nextId + 1
      sendBudget := c.sendBudget + 1 }

/-- Modelled from the spec: readiness bits of an object, produced on
demand by scanning pending state.  A port is connection-ready when a
pending connection is queued; a channel is message-ready when an
unretrieved inbound message exists and HUP when the peer closed. -/
def objEventBits : Obj → Nat
  | .port pr => if pr.pending.isEmpty then 0 else IPC_HANDLE_POLL_READY
  | .chan c =>
    (if (firstUnretrieved c).isSome then IPC_HANDLE_POLL_MSG else 0) +
      (if c.peerClosed then IPC_HANDLE_POLL_HUP else 0)

/-- Event record filled by the wait calls. -/
structure UEvent where
  handle : Int
  event : Nat
  cookie : Int
  deriving DecidableEq

/-- Info record filled by `get_msg`. -/
structure MsgInfo where
  id : Nat
  len : Nat
  deriving DecidableEq

/-- A scatter segment: a base (None models a NULL pointer, otherwise the
bytes it points to) and a length. -/
structure IoSeg where
  base : Option (List Nat)
  len : Nat
  deriving DecidableEq

/-- An ipc_msg_t: scatter list (None models a NULL iov pointer), the
declared segment count, and the handle count (handle transfer is not
supported). -/
structure IpcMsg where
  iov : Option (List IoSeg)
  numIov : Nat
  numHandles : Nat
  deriving DecidableEq

def segsOf (m : IpcMsg) : List IoSeg := (m.iov.getD []).take m.numIov

def segBad (g : IoSeg) : Bool := g.base.isNone && g.len ≠ 0

def segData (g : IoSeg) : List Nat := (g.base.getD []).take g.len

/-- Total byte count of all scatter segments of a message. -/
def totalLen (m : IpcMsg) : Nat := ((segsOf m).map (fun g => g.len)).sum

/-- Modelled from the spec: `port_create(path, num_bufs, buf_size, flags)`.
Rejects malformed arguments with `ERR_INVALID_ARGS`; a full handle
table fails `ERR_NO_RESOURCES` and takes priority over the
`ERR_ALREADY_EXISTS` path-collision failure. -/
def port_create (s : KState) (path : String) (numBufs bufSize : Nat) (_flags : Nat) :
    Int × KState :=
  if path = "" ∨ MAX_PORT_PATH_LEN < path.length ∨ numBufs = 0 ∨
      MAX_PORT_BUF_NUM < numBufs ∨ bufSize = 0 ∨ MAX_PORT_BUF_SIZE < bufSize then
    (ERR_INVALID_ARGS, s)
  else
    match allocSlot s { obj := .port { path := path, numBufs := numBufs,
                                       bufSize := bufSize, pending := [] },
                        cookie := 0 } with
    | none => (ERR_NO_RESOURCES, s)
    | some (i, s') =>
      if pathRegistered s path then (ERR_ALREADY_EXISTS, s)
      else ((i : Int), s')

/-- Modelled from the spec: `connect(path, timeout)`.  An overlong path
fails `ERR_INVALID_ARGS`; an unregistered (including empty) path fails
`ERR_NOT_FOUND`.  Connecting to another task's service port allocates a
channel handle.  Connecting to a port owned by this single-threaded task
itself cannot be accepted concurrently, so it times out for any finite
timeout, leaving the abandoned connection queued on the port. -/
def connect (s : KState) (path : String) (_timeout : Int) : Int × KState :=
  if MAX_PORT_PATH_LEN < path.length then (ERR_INVALID_ARGS, s)
  else
    match s.extPorts.find? (fun e => e.path = path) with
    | some e =>
      match allocSlot s { obj := .chan { inbound := [], outbound := [],
                                         sendBudget := e.numBufs,
                                         peerClosed := false, nextId := 0 },
                          cookie := 0 } with
      | none => (ERR_NO_RESOURCES, s)
      | some (i, s') => ((i : Int), s')
    | none =>
      match findOwnPortIdx s path with
      | some i => (ERR_TIMED_OUT, addPending s i)
      | none => (ERR_NOT_FOUND, s)

/-- Modelled from the spec: `accept(port_handle)`.  Handle-table rules,
`ERR_INVALID_ARGS` on a channel handle; dequeues the oldest pending
connection, yielding `ERR_CHANNEL_CLOSED` if its originator already tore
it down, `ERR_NO_MSG` when none remain, `ERR_NO_RESOURCES` (leaving the
connection queued) when no handle slot is free. -/
def accept (s : KState) (h : Int) : Int × KState :=
  match lookupSlot s h with
  | .error e => (e, s)
  | .ok sl =>
    match sl.obj with
    | .chan _ => (ERR_INVALID_ARGS, s)
    | .port pr =>
      match pr.pending with
      | [] => (ERR_NO_MSG, s)
      | pc :: rest =>
        if pc.closedByPeer then (ERR_CHANNEL_CLOSED, setPortPending s h.toNat rest)
        else
          match allocSlot s { obj := .chan { inbound := [], outbound := [],
                                             sendBudget := pr.numBufs,
                                             peerClosed := false, nextId := 0 },
                              cookie := 0 } with
          | none => (ERR_NO_RESOURCES, s)
          | some (i, s') => ((i : Int), setPortPending s' h.toNat rest)

/-- Modelled from the spec: `close(handle)` releases the slot; the
standard bad-handle / not-found split applies, double close fails
`ERR_NOT_FOUND`. -/
def close (s : KState) (h : Int) : Int × KState :=
  match lookupSlot s h with
  | .error e => (e, s)
  | .ok _ => (NO_ERROR, { s with table := s.table.set h.toNat none })

/-- Modelled from the spec: `set_cookie(handle, value)` stores an opaque
value delivered back in wait events; same handle rules. -/
def set_cookie (s : KState) (h : Int) (v : Int) : Int × KState :=
  match lookupSlot s h with
  | .error e => (e, s)
  | .ok sl => (NO_ERROR, { s with table := s.table.set h.toNat (some { sl with cookie := v }) })

/-- Modelled from the spec: `wait(handle, &event, timeout)`.  Returns 1
and fills the event when a readiness condition holds; otherwise the
timeout elapses (`ERR_TIMED_OUT`) — in this single-task model no
readiness can appear while blocked, so any timeout behaves as the
zero-timeout poll.  Does not consume readiness state. -/
def wait (s : KState) (h : Int) (_timeout : Int) : Int × Option UEvent :=
  match lookupSlot s h with
  | .error e => (e, none)
  | .ok sl =>
    let bits := objEventBits sl.obj
    if bits = 0 then (ERR_TIMED_OUT, none)
    else ((1 : Int), some { handle := h, event := bits, cookie := sl.cookie })

/-- Modelled from the spec: `wait_any(&event, timeout)` scans all handles
owned by the caller, failing `ERR_NOT_FOUND` when it owns none. -/
def wait_any (s : KState) (_timeout : Int) : Int × Option UEvent :=
  if s.table.all (fun os => os.isNone) then (ERR_NOT_FOUND, none)
  else
    match (List.range MAX_USER_HANDLES).find? (fun i =>
        match s.table.getD i none with
        | some sl => objEventBits sl.obj ≠ 0
        | none => false) with
    | some i =>
      match s.table.getD i none with
      | some sl =>
        ((1 : Int), some { handle := (i : Int), event := objEventBits sl.obj, cookie := sl.cookie })
      | none => (ERR_TIMED_OUT, none)
    | none => (ERR_TIMED_OUT, none)

/-- Modelled from the spec: `send_msg(channel, msg)`.  A NULL msg faults
before handle validation; then handle rules, `ERR_INVALID_ARGS` on a
port handle, `ERR_NOT_SUPPORTED` for handle transfer, `ERR_FAULT` for a
NULL scatter list or NULL segment base, `ERR_NOT_ENOUGH_BUFFER` when the
peer's buffer budget is exhausted; on success all segments are
concatenated into one buffer and the total byte count is returned. -/
def send_msg (s : KState) (h : Int) (msg : Option IpcMsg) : Int × KState :=
  match msg with
  | none => (ERR_FAULT, s)
  | some m =>
    match lookupSlot s h with
    | .error e => (e, s)
    | .ok sl =>
      match sl.obj with
      | .port _ => (ERR_INVALID_ARGS, s)
      | .chan c =>
        if m.numHandles ≠ 0 then (ERR_NOT_SUPPORTED, s)
        else if m.iov.isNone ∧ m.numIov ≠ 0 then (ERR_FAULT, s)
        else if (segsOf m).any segBad then (ERR_FAULT, s)
        else if c.sendBudget = 0 then (ERR_NOT_ENOUGH_BUFFER, s)
        else ((totalLen m : Int), setChan s h.toNat (chanSend c (((segsOf m).map segData).flatten)))

/-- Modelled from the spec: `get_msg(channel, &info)`.  Handle rules,
`ERR_INVALID_ARGS` on a port handle, `ERR_NO_MSG` when no unretrieved
inbound message exists; otherwise hands out the oldest unretrieved
message's id and length without removing it from the queue. -/
def get_msg (s : KState) (h : Int) : Int × KState × Option MsgInfo :=
  match lookupSlot s h with
  | .error e => (e, s, none)
  | .ok sl =>
    match sl.obj with
    | .port _ => (ERR_INVALID_ARGS, s, none)
    | .chan c =>
      match firstUnretrieved c with
      | none => (ERR_NO_MSG, s, none)
      | some m =>
        (NO_ERROR, setChan s h.toNat (markRetrieved c m.id), some { id := m.id, len := m.data.length })

/-- Modelled from the spec: `read_msg(channel, id, offset, msg)`.  A NULL
msg faults before handle validation; then handle rules,
`ERR_INVALID_ARGS` on a port handle or for an id not currently held or
an offset at/beyond the message length, `ERR_NOT_SUPPORTED` for handle
transfer, `ERR_FAULT` for NULL scatter pointers.  Copies up to the
scatter capacity starting at `offset`, returning the bytes copied; the
message is not consumed (the state is unchanged). -/
def read_msg (s : KState) (h : Int) (j : Nat) (offset : Nat) (msg : Option IpcMsg) :
    Int × List Nat :=
  match msg with
  | none => (ERR_FAULT, [])
  | some m =>
    match lookupSlot s h with
    | .error e => (e, [])
    | .ok sl =>
      match sl.obj with
      | .port _ => (ERR_INVALID_ARGS, [])
      | .chan c =>
        match findHeld c j with
        | none => (ERR_INVALID_ARGS, [])
        | some mm =>
          if m.numHandles ≠ 0 then (ERR_NOT_SUPPORTED, [])
          else if m.iov.isNone ∧ m.numIov ≠ 0 then (ERR_FAULT, [])
          else if (segsOf m).any segBad then (ERR_FAULT, [])
          else if mm.data.length ≤ offset then (ERR_INVALID_ARGS, [])
          else
            let out := (mm.data.drop offset).take (totalLen m)
            ((out.length : Int), out)

/-- Modelled from the spec: `put_msg(channel, id)` releases the message
held under `id`; handle rules, `ERR_INVALID_ARGS` on a port handle or
for an id not currently held by the caller on that channel. -/
def put_msg (s : KState) (h : Int) (j : Nat) : Int × KState :=
  match lookupSlot s h with
  | .error e => (e, s)
  | .ok sl =>
    match sl.obj with
    | .port _ => (ERR_INVALID_ARGS, s)
    | .chan c =>
      if (findHeld c j).isSome then (NO_ERROR, setChan s h.toNat (removeMsg c j))
      else (ERR_INVALID_ARGS, s)

/-- Modelled from the spec: one step of the external echo service — it
reads the oldest message sent on the channel in slot `i` and sends the
same bytes back, which the kernel enqueues inbound with a fresh id. -/
def echoDeliver (s : KState) (i : Nat) : KState :=
  match getChan s i with
  | some c => setChan s i (chanDeliver c)
  | none => s

/-
  Channel-level message-queue events, used to state queue properties
  that hold across arbitrary later operation sequences.  `cstep` applies
  exactly the channel transformations the syscalls above use
  (`chanSend`, `chanDeliver`, `markRetrieved`, `removeMsg`).
-/

/-- One channel-level event: a send, a peer delivery, a `get_msg`, or a
`put_msg` of a given id. -/
inductive ChanEvt where
  | send (d : List Nat)
  | deliver
  | get
  | put (j : Nat)
  deriving DecidableEq

def cstep (c : Chan) : ChanEvt → Chan
  | .send d => if c.sendBudget = 0 then c else chanSend c d
  | .deliver => chanDeliver c
  | .get =>
    match firstUnretrieved c with
    | none => c
    | some m => markRetrieved c m.id
  | .put j => if (findHeld c j).isSome then removeMsg c j else c

def applyEvts (c : Chan) (evs : List ChanEvt) : Chan := evs.foldl cstep c

/-- Well-formedness: every queued message id is below the fresh-id
counter. -/
def wfChan (c : Chan) : Prop := ∀ m ∈ c.inbound, m.id < c.nextId

/-- Id `j` has been released on channel `c`: it is below the fresh-id
counter and absent from the inbound queue, so no future message can
carry it. -/
def releasedId (j : Nat) (c : Chan) : Prop :=
  j < c.nextId ∧ ∀ m ∈ c.inbound, m.id ≠ j

theorem releasedId_cstep {j : Nat} {c : Chan} (e : ChanEvt)
    (h : releasedId j c) : releasedId j (cstep c e) := by
  obtain ⟨hlt, habs⟩ := h
  cases e with
  | send d =>
    simp only [cstep]
    split
    · exact ⟨hlt, habs⟩
    · exact ⟨hlt, habs⟩
  | deliver =>
    simp only [cstep, chanDeliver]
    cases hout : c.outbound with
    | nil => exact ⟨hlt, habs⟩
    | cons d rest =>
      refine ⟨Nat.lt_succ_of_lt hlt, ?_⟩
      intro m hm
      rcases List.mem_append.mp hm with hm | hm
      · exact habs m hm
      · rcases List.mem_singleton.mp hm with rfl
        exact fun hEq => absurd (hEq ▸ hlt) (lt_irrefl _)
  | get =>
    simp only [cstep]
    cases hfu : firstUnretrieved c with
    | none => exact ⟨hlt, habs⟩
    | some m =>
      refine ⟨hlt, ?_⟩
      intro m' hm'
      simp only [markRetrieved, List.mem_map] at hm'
      obtain ⟨m0, hm0, hEq⟩ := hm'
      have hid : m'.id = m0.id := by
        subst hEq
        by_cases hc : m0.id = m.id <;> simp [hc]
      rw [hid]
      exact habs m0 hm0
  | put i =>
    simp only [cstep]
    split
    · refine ⟨hlt, ?_⟩
      intro m hm
      exact habs m (List.mem_of_mem_filter hm)
    · exact ⟨hlt, habs⟩

theorem releasedId_applyEvts {j : Nat} {c : Chan} (evs : List ChanEvt)
    (h : releasedId j c) : releasedId j (applyEvts c evs) := by
  induction evs generalizing c with
  | nil => exact h
  | cons e evs ih => exact ih (releasedId_cstep e h)

theorem findHeld_id {c : Chan} {j : Nat} {mm : Msg}
    (h : findHeld c j = some mm) : mm.id = j ∧ mm ∈ c.inbound := by
  have hp := List.find?_some h
  have hmem := List.mem_of_find?_eq_some h
  simp only [Bool.and_eq_true, beq_iff_eq] at hp
  exact ⟨hp.1, hmem⟩

/-- After a successful `put_msg` of `j`, the id `j` is released. -/
theorem releasedId_removeMsg {c : Chan} {j : Nat} {mm : Msg}
    (hwf : wfChan c) (h : findHeld c j = some mm) :
    releasedId j (removeMsg c j) := by
  obtain ⟨hid, hmem⟩ := findHeld_id h
  refine ⟨hid ▸ hwf mm hmem, ?_⟩
  intro m hm
  have := List.of_mem_filter hm
  simpa using this

theorem firstUnretrieved_mem {c : Chan} {m : Msg}
    (h : firstUnretrieved c = some m) : m ∈ c.inbound :=
  List.mem_of_find?_eq_some h

/-- Handle lookup on an out-of-range handle value. -/
theorem lookupSlot_out_of_range (s : KState) (h : Int)
    (hc : h < 0 ∨ (MAX_USER_HANDLES : Int) ≤ h) :
    lookupSlot s h = .error ERR_BAD_HANDLE := by
  unfold lookupSlot
  rw [if_pos hc]

/-- Handle lookup on an in-range but unallocated handle value. -/
theorem lookupSlot_unallocated (s : KState) (h : Int)
    (h0 : 0 ≤ h) (h1 : h < (MAX_USER_HANDLES : Int))
    (ht : s.table.getD h.toNat none = none) :
    lookupSlot s h = .error ERR_NOT_FOUND := by
  unfold lookupSlot
  rw [if_neg (by omega), ht]

/-- The only lookup failures are the two handle errors. -/
theorem lookupSlot_error_cases {s : KState} {h : Int} {e : Int}
    (he : lookupSlot s h = .error e) :
    e = ERR_BAD_HANDLE ∨ e = ERR_NOT_FOUND := by
  unfold lookupSlot at he
  split at he
  · exact Or.inl (by injection he with h'; exact h'.symm)
  · split at he
    · exact Or.inr (by injection he with h'; exact h'.symm)
    · exact absurd he (by simp)

/- Concrete states and inputs used to instantiate the theorems, built
with the same call sequences as main.c. -/

/-- A task that owns no handles yet. -/
def emptyState : KState := { table := initTable, extPorts := [] }

def dsPath : String := "com.android.ipc-unittest.srv.datasink"

def echoPath : String := "com.android.ipc-unittest.srv.echo"

/-- Initial state with the `datasink` and `echo` services registered by
the server tasks the tests connect to. -/
def srvState : KState :=
  { table := initTable,
    extPorts := [{ path := dsPath, numBufs := 8 }, { path := echoPath, numBufs := 8 }] }

/-- The all-zero `ipc_msg_t` of `run_send_msg_negative_test` (msg
memset to 0). -/
def emptyMsg : IpcMsg := { iov := none, numIov := 0, numHandles := 0 }

def mainDsPath : String := "com.android.ipc-unittest.main.datasink"

/-- State with an own port (handle 0) and a channel to `datasink`
(handle 1), as in the kind-mismatch negative tests. -/
def sPC : KState :=
  (connect (port_create srvState mainDsPath 2 MAX_PORT_BUF_SIZE 0).2 dsPath 1000).2

def portSlotW : Slot :=
  { obj := .port { path := mainDsPath, numBufs := 2, bufSize := MAX_PORT_BUF_SIZE, pending := [] },
    cookie := 0 }

def chanSlotW : Slot :=
  { obj := .chan { inbound := [], outbound := [], sendBudget := 8,
                   peerClosed := false, nextId := 0 },
    cookie := 0 }

/-- Claim C1: every operation that takes a handle (wait, close,
set_cookie, accept, get_msg, put_msg, send_msg with a non-null message,
read_msg with a non-null message) fails `ERR_BAD_HANDLE` on an
out-of-range handle value (negative or >= `MAX_USER_HANDLES`) and
`ERR_NOT_FOUND` on an in-range handle whose slot is unallocated; the two
codes are distinct, so never interchanged. -/
theorem claim_C1_handle_error_split (s : KState) (h t v : Int) (j off : Nat) (m : IpcMsg) :
    ((h < 0 ∨ (MAX_USER_HANDLES : Int) ≤ h) →
      (wait s h t).1 = ERR_BAD_HANDLE ∧
      (close s h).1 = ERR_BAD_HANDLE ∧
      (set_cookie s h v).1 = ERR_BAD_HANDLE ∧
      (accept s h).1 = ERR_BAD_HANDLE ∧
      (get_msg s h).1 = ERR_BAD_HANDLE ∧
      (put_msg s h j).1 = ERR_BAD_HANDLE ∧
      (send_msg s h (some m)).1 = ERR_BAD_HANDLE ∧
      (read_msg s h j off (some m)).1 = ERR_BAD_HANDLE) ∧
    ((0 ≤ h ∧ h < (MAX_USER_HANDLES : Int) ∧ s.table.getD h.toNat none = none) →
      (wait s h t).1 = ERR_NOT_FOUND ∧
      (close s h).1 = ERR_NOT_FOUND ∧
      (set_cookie s h v).1 = ERR_NOT_FOUND ∧
      (accept s h).1 = ERR_NOT_FOUND ∧
      (get_msg s h).1 = ERR_NOT_FOUND ∧
      (put_msg s h j).1 = ERR_NOT_FOUND ∧
      (send_msg s h (some m)).1 = ERR_NOT_FOUND ∧
      (read_msg s h j off (some m)).1 = ERR_NOT_FOUND) ∧
    ERR_BAD_HANDLE ≠ ERR_NOT_FOUND := by
  refine ⟨?_, ?_, by decide⟩
  · intro hc
    have hl := lookupSlot_out_of_range s h hc
    exact ⟨by simp [wait, hl], by simp [close, hl], by simp [set_cookie, hl],
           by simp [accept, hl], by simp [get_msg, hl], by simp [put_msg, hl],
           by simp [send_msg, hl], by simp [read_msg, hl]⟩
  · rintro ⟨h0, h1, ht⟩
    have hl := lookupSlot_unallocated s h h0 h1 ht
    exact ⟨by simp [wait, hl], by simp [close, hl], by simp [set_cookie, hl],
           by simp [accept, hl], by simp [get_msg, hl], by simp [put_msg, hl],
           by simp [send_msg, hl], by simp [read_msg, hl]⟩

theorem claim_C1_witness :
    (wait emptyState (-1) 1000).1 = ERR_BAD_HANDLE ∧
    (close emptyState 64).1 = ERR_BAD_HANDLE ∧
    (close emptyState 5).1 = ERR_NOT_FOUND :=
  ⟨((claim_C1_handle_error_split emptyState (-1) 1000 0 0 0 emptyMsg).1 (by decide)).1,
   ((claim_C1_handle_error_split emptyState 64 1000 0 0 0 emptyMsg).1 (by decide)).2.1,
   ((claim_C1_handle_error_split emptyState 5 1000 0 0 0 emptyMsg).2.1
      ⟨by decide, by decide, by decide⟩).2.1⟩

/-- Claim C10: a NULL message pointer makes send_msg and read_msg fail
`ERR_FAULT` for every handle value — the fault check precedes handle
validation — while with a non-null message the handle errors
(`ERR_BAD_HANDLE` out of range, `ERR_NOT_FOUND` unallocated) are
returned. -/
theorem claim_C10_null_msg_fault (s : KState) (h : Int) (j off : Nat) (m : IpcMsg) :
    (send_msg s h none).1 = ERR_FAULT ∧
    (read_msg s h j off none).1 = ERR_FAULT ∧
    ((h < 0 ∨ (MAX_USER_HANDLES : Int) ≤ h) →
      (send_msg s h (some m)).1 = ERR_BAD_HANDLE ∧
      (read_msg s h j off (some m)).1 = ERR_BAD_HANDLE) ∧
    ((0 ≤ h ∧ h < (MAX_USER_HANDLES : Int) ∧ s.table.getD h.toNat none = none) →
      (send_msg s h (some m)).1 = ERR_NOT_FOUND ∧
      (read_msg s h j off (some m)).1 = ERR_NOT_FOUND) ∧
    ERR_FAULT ≠ ERR_BAD_HANDLE ∧ ERR_FAULT ≠ ERR_NOT_FOUND := by
  refine ⟨rfl, rfl, ?_, ?_, by decide, by decide⟩
  · intro hc
    have hl := lookupSlot_out_of_range s h hc
    exact ⟨by simp [send_msg, hl], by simp [read_msg, hl]⟩
  · rintro ⟨h0, h1, ht⟩
    have hl := lookupSlot_unallocated s h h0 h1 ht
    exact ⟨by simp [send_msg, hl], by simp [read_msg, hl]⟩

theorem claim_C10_witness :
    (send_msg emptyState (-1) none).1 = ERR_FAULT ∧
    (read_msg emptyState 64 0 0 none).1 = ERR_FAULT ∧
    (send_msg emptyState (-1) (some emptyMsg)).1 = ERR_BAD_HANDLE ∧
    (read_msg emptyState 5 0 0 (some emptyMsg)).1 = ERR_NOT_FOUND :=
  ⟨(claim_C10_null_msg_fault emptyState (-1) 0 0 emptyMsg).1,
   (claim_C10_null_msg_fault emptyState 64 0 0 emptyMsg).2.1,
   ((claim_C10_null_msg_fault emptyState (-1) 0 0 emptyMsg).2.2.1 (by decide)).1,
   ((claim_C10_null_msg_fault emptyState 5 0 0 emptyMsg).2.2.2.1
      ⟨by decide, by decide, by decide⟩).2⟩

/-- Claim C9: operations bound to one object kind fail
`ERR_INVALID_ARGS` on a live handle of the other kind: accept on a
channel handle, and send_msg, get_msg, read_msg, put_msg on a port
handle. -/
theorem claim_C9_kind_mismatch (s : KState) (h : Int) (sl : Slot) (j off : Nat) (m : IpcMsg)
    (hl : lookupSlot s h = .ok sl) :
    (∀ c, sl.obj = .chan c → (accept s h).1 = ERR_INVALID_ARGS) ∧
    (∀ pr, sl.obj = .port pr →
      (send_msg s h (some m)).1 = ERR_INVALID_ARGS ∧
      (get_msg s h).1 = ERR_INVALID_ARGS ∧
      (read_msg s h j off (some m)).1 = ERR_INVALID_ARGS ∧
      (put_msg s h j).1 = ERR_INVALID_ARGS) := by
  constructor
  · intro c hobj
    simp [accept, hl, hobj]
  · intro pr hobj
    exact ⟨by simp [send_msg, hl, hobj], by simp [get_msg, hl, hobj],
           by simp [read_msg, hl, hobj], by simp [put_msg, hl, hobj]⟩

theorem claim_C9_witness :
    (accept sPC 1).1 = ERR_INVALID_ARGS ∧
    (send_msg sPC 0 (some emptyMsg)).1 = ERR_INVALID_ARGS ∧
    (get_msg sPC 0).1 = ERR_INVALID_ARGS ∧
    (read_msg sPC 0 0 0 (some emptyMsg)).1 = ERR_INVALID_ARGS ∧
    (put_msg sPC 0 0).1 = ERR_INVALID_ARGS :=
  ⟨(claim_C9_kind_mismatch sPC 1 chanSlotW 0 0 emptyMsg (by rfl)).1 _ rfl,
   ((claim_C9_kind_mismatch sPC 0 portSlotW 0 0 emptyMsg (by rfl)).2 _ rfl).1,
   ((claim_C9_kind_mismatch sPC 0 portSlotW 0 0 emptyMsg (by rfl)).2 _ rfl).2.1,
   ((claim_C9_kind_mismatch sPC 0 portSlotW 0 0 emptyMsg (by rfl)).2 _ rfl).2.2.1,
   ((claim_C9_kind_mismatch sPC 0 portSlotW 0 0 emptyMsg (by rfl)).2 _ rfl).2.2.2⟩

def portPath0 : String := "com.android.ipc-unittest.port.test0"

/-- State owning a single freshly created port (handle 0), no pending
connections. -/
def sFreshPort : KState := (port_create emptyState portPath0 2 MAX_PORT_BUF_SIZE 0).2

def freshPortSlot : Slot :=
  { obj := .port { path := portPath0, numBufs := 2, bufSize := MAX_PORT_BUF_SIZE, pending := [] },
    cookie := 0 }

/-- Claim C3: wait returns 1 and fills the event when a readiness
condition holds and `ERR_TIMED_OUT` otherwise; on a freshly created port
with no pending connection, zero-timeout wait polls and yields
`ERR_TIMED_OUT` (which is neither `NO_ERROR` nor the success value 1,
contrary to the `EXPECT_EQ(NO_ERROR, rc)` checks of
`run_wait_on_port_test`). -/
theorem claim_C3_wait_semantics :
    (∀ (s : KState) (h t : Int) (sl : Slot), lookupSlot s h = .ok sl →
      (objEventBits sl.obj = 0 → wait s h t = (ERR_TIMED_OUT, none)) ∧
      (objEventBits sl.obj ≠ 0 →
        wait s h t =
          (1, some { handle := h, event := objEventBits sl.obj, cookie := sl.cookie }))) ∧
    (port_create emptyState portPath0 2 MAX_PORT_BUF_SIZE 0).1 = 0 ∧
    wait sFreshPort 0 0 = (ERR_TIMED_OUT, none) ∧
    (wait_any sFreshPort 0).1 = ERR_TIMED_OUT ∧
    ERR_TIMED_OUT ≠ NO_ERROR ∧ ERR_TIMED_OUT ≠ 1 := by
  refine ⟨?_, by decide, by decide, by decide, by decide, by decide⟩
  intro s h t sl hl
  constructor
  · intro hz
    simp [wait, hl, hz]
  · intro hnz
    simp [wait, hl, hnz]

theorem claim_C3_witness :
    wait sFreshPort 0 1000 = (ERR_TIMED_OUT, none) :=
  ((claim_C3_wait_semantics.1 sFreshPort 0 1000 freshPortSlot (by rfl)).1 (by decide))

/-- Any send with a non-null message either returns exactly the total
scatter length or fails with a negative code. -/
theorem send_msg_rc (s : KState) (h : Int) (m : IpcMsg) :
    (send_msg s h (some m)).1 = (totalLen m : Int) ∨ (send_msg s h (some m)).1 < 0 := by
  cases hl : lookupSlot s h with
  | error e =>
    rcases lookupSlot_error_cases hl with rfl | rfl <;>
      simp [send_msg, hl, ERR_BAD_HANDLE, ERR_NOT_FOUND]
  | ok sl =>
    rcases sl with ⟨o, k⟩
    cases o with
    | port pr => simp [send_msg, hl, ERR_INVALID_ARGS]
    | chan c =>
      simp only [send_msg, hl]
      split_ifs <;>
        simp [ERR_NOT_SUPPORTED, ERR_FAULT, ERR_NOT_ENOUGH_BUFFER]

/-- The message of `run_send_msg_test`: two 64-byte scatter segments
with the incremental 0x55 / 0x44 patterns. -/
def msg128 : IpcMsg :=
  { iov := some [{ base := some (fill_test_buf 64 85), len := 64 },
                 { base := some (fill_test_buf 64 68), len := 64 }],
    numIov := 2, numHandles := 0 }

/-- State with a channel to the datasink service at handle 0. -/
def sDS : KState := (connect srvState dsPath 1000).2

/-- Claim C2: a successful send_msg returns the total byte count of all
scatter segments; for the two-64-byte-segment message of
`run_send_msg_test` that total is 128, not the 64 the test asserts. -/
theorem claim_C2_send_total_bytes :
    (∀ (s : KState) (h : Int) (m : IpcMsg), 0 ≤ (send_msg s h (some m)).1 →
      (send_msg s h (some m)).1 = (totalLen m : Int)) ∧
    totalLen msg128 = 128 ∧
    (connect srvState dsPath 1000).1 = 0 ∧
    (send_msg sDS 0 (some msg128)).1 = 128 ∧
    (128 : Int) ≠ 64 := by
  refine ⟨?_, by decide, by decide, by decide, by decide⟩
  intro s h m hpos
  rcases send_msg_rc s h m with hEq | hneg
  · exact hEq
  · omega

theorem claim_C2_witness :
    (send_msg sDS 0 (some msg128)).1 = (totalLen msg128 : Int) :=
  claim_C2_send_total_bytes.1 sDS 0 msg128 (by decide)

/-- Claim C4: with valid arguments, a full handle table makes
port_create fail `ERR_NO_RESOURCES` regardless of any path collision
(the exhaustion failure takes priority), while with a free slot a path
collision fails `ERR_ALREADY_EXISTS`. -/
theorem claim_C4_port_create_priority (s : KState) (path : String) (nb bs f : Nat)
    (hargs : ¬(path = "" ∨ MAX_PORT_PATH_LEN < path.length ∨ nb = 0 ∨
               MAX_PORT_BUF_NUM < nb ∨ bs = 0 ∨ MAX_PORT_BUF_SIZE < bs)) :
    ((∀ i, i < MAX_USER_HANDLES → (s.table.getD i none).isSome) → freeSlotIdx s = none) ∧
    (freeSlotIdx s = none → (port_create s path nb bs f).1 = ERR_NO_RESOURCES) ∧
    (∀ i, freeSlotIdx s = some i → pathRegistered s path = true →
      (port_create s path nb bs f).1 = ERR_ALREADY_EXISTS) := by
  refine ⟨?_, ?_, ?_⟩
  · intro hfull
    unfold freeSlotIdx
    rw [List.find?_eq_none]
    intro i hi
    have hs := hfull i (List.mem_range.mp hi)
    simp only [Option.isNone_iff_eq_none]
    exact Option.ne_none_iff_isSome.mpr hs
  · intro hfree
    unfold port_create
    rw [if_neg hargs]
    unfold allocSlot
    rw [hfree]
  · intro i hfree hcoll
    unfold port_create
    rw [if_neg hargs]
    unfold allocSlot
    rw [hfree]
    simp [hcoll]

/-- A full handle table (every slot owns the same port object). -/
def sFullW : KState := { table := List.replicate MAX_USER_HANDLES (some portSlotW), extPorts := [] }

/-- One port registered at `mainDsPath`, 63 slots free. -/
def sOneW : KState := (port_create emptyState mainDsPath 2 MAX_PORT_BUF_SIZE 0).2

theorem claim_C4_witness :
    (port_create sFullW mainDsPath 2 MAX_PORT_BUF_SIZE 0).1 = ERR_NO_RESOURCES ∧
    (port_create sOneW mainDsPath 2 MAX_PORT_BUF_SIZE 0).1 = ERR_ALREADY_EXISTS :=
  ⟨(claim_C4_port_create_priority sFullW mainDsPath 2 MAX_PORT_BUF_SIZE 0
      (by decide)).2.1 (by decide),
   (claim_C4_port_create_priority sOneW mainDsPath 2 MAX_PORT_BUF_SIZE 0
      (by decide)).2.2 1 (by decide) (by decide)⟩

/-- Claim C7, counterexample to the claim as stated: put_msg on the
out-of-range handle `INVALID_IPC_HANDLE` (with id 0 not held) fails with
`ERR_BAD_HANDLE`, a failure code different from `ERR_INVALID_ARGS`, so
`ERR_INVALID_ARGS` is not put_msg's only failure code. -/
theorem claim_C7_counterexample :
    (put_msg emptyState INVALID_IPC_HANDLE 0).1 = ERR_BAD_HANDLE ∧
    ERR_BAD_HANDLE ≠ ERR_INVALID_ARGS ∧ ERR_BAD_HANDLE ≠ NO_ERROR := by
  decide

/-- Claim C7 as amended: put_msg returns 0 on success; besides the
standard handle errors (`ERR_BAD_HANDLE` out of range, `ERR_NOT_FOUND`
unallocated), its only failure code is `ERR_INVALID_ARGS`, returned
exactly when the handle denotes a port or the id is not currently held
by the caller on that channel; no other code is produced. -/
theorem claim_C7_put_msg_codes (s : KState) (h : Int) (j : Nat) :
    ((put_msg s h j).1 = NO_ERROR ∨ (put_msg s h j).1 = ERR_BAD_HANDLE ∨
      (put_msg s h j).1 = ERR_NOT_FOUND ∨ (put_msg s h j).1 = ERR_INVALID_ARGS) ∧
    ((h < 0 ∨ (MAX_USER_HANDLES : Int) ≤ h) → (put_msg s h j).1 = ERR_BAD_HANDLE) ∧
    ((0 ≤ h ∧ h < (MAX_USER_HANDLES : Int) ∧ s.table.getD h.toNat none = none) →
      (put_msg s h j).1 = ERR_NOT_FOUND) ∧
    (∀ sl, lookupSlot s h = .ok sl →
      (∀ pr, sl.obj = .port pr → (put_msg s h j).1 = ERR_INVALID_ARGS) ∧
      (∀ c, sl.obj = .chan c →
        ((findHeld c j).isSome = true → (put_msg s h j).1 = NO_ERROR) ∧
        ((findHeld c j).isSome = false → (put_msg s h j).1 = ERR_INVALID_ARGS))) := by
  refine ⟨?_, ?_, ?_, ?_⟩
  · cases hl : lookupSlot s h with
    | error e => rcases lookupSlot_error_cases hl with rfl | rfl <;> simp [put_msg, hl]
    | ok sl =>
      rcases sl with ⟨o, k⟩
      cases o with
      | port pr => simp [put_msg, hl]
      | chan c =>
        simp only [put_msg, hl]
        split_ifs <;> simp
  · intro hc
    have hl := lookupSlot_out_of_range s h hc
    simp [put_msg, hl]
  · rintro ⟨h0, h1, ht⟩
    have hl := lookupSlot_unallocated s h h0 h1 ht
    simp [put_msg, hl]
  · intro sl hl
    constructor
    · intro pr hobj
      simp [put_msg, hl, hobj]
    · intro c hobj
      constructor
      · intro hsome
        simp [put_msg, hl, hobj, hsome]
      · intro hnone
        simp [put_msg, hl, hobj, hnone]

/-- A channel (handle 0) holding message id 0 retrieved via get_msg. -/
def heldChan : Chan :=
  { inbound := [{ id := 0, data := [1, 2], retrieved := true }],
    outbound := [], sendBudget := 8, peerClosed := false, nextId := 1 }

def sHeld : KState :=
  { table := initTable.set 0 (some { obj := .chan heldChan, cookie := 0 }), extPorts := [] }

theorem claim_C7_witness :
    (put_msg sHeld 0 0).1 = NO_ERROR ∧
    (put_msg sHeld 0 5).1 = ERR_INVALID_ARGS ∧
    (put_msg sHeld 64 0).1 = ERR_BAD_HANDLE :=
  ⟨(((claim_C7_put_msg_codes sHeld 0 0).2.2.2 { obj := .chan heldChan, cookie := 0 }
      (by rfl)).2 heldChan rfl).1 (by decide),
   (((claim_C7_put_msg_codes sHeld 0 5).2.2.2 { obj := .chan heldChan, cookie := 0 }
      (by rfl)).2 heldChan rfl).2 (by decide),
   (claim_C7_put_msg_codes sHeld 64 0).2.1 (by decide)⟩

/-- Claim C8: connect fails `ERR_NOT_FOUND` on an empty or unregistered
path and `ERR_INVALID_ARGS` on a path longer than `MAX_PORT_PATH_LEN`,
while port_create on an empty path fails `ERR_INVALID_ARGS` — the two
empty-path outcomes differ. -/
theorem claim_C8_connect_path_errors (s : KState) (p : String) (t : Int) (nb bs f : Nat) :
    (pathRegistered s p = false → p.length ≤ MAX_PORT_PATH_LEN →
      (connect s p t).1 = ERR_NOT_FOUND) ∧
    (MAX_PORT_PATH_LEN < p.length → (connect s p t).1 = ERR_INVALID_ARGS) ∧
    (port_create s "" nb bs f).1 = ERR_INVALID_ARGS ∧
    ERR_NOT_FOUND ≠ ERR_INVALID_ARGS := by
  refine ⟨?_, ?_, ?_, by decide⟩
  · intro hreg hlen
    rw [pathRegistered, Bool.or_eq_false_iff] at hreg
    obtain ⟨hext, hown⟩ := hreg
    simp only [List.any_eq_false, decide_eq_true_eq] at hext hown
    have hfind : s.extPorts.find? (fun e => e.path = p) = none := by
      rw [List.find?_eq_none]
      intro e he
      simpa using hext e he
    have hfind' : findOwnPortIdx s p = none := by
      rw [findOwnPortIdx, List.find?_eq_none]
      intro i hi
      simpa using hown i hi
    unfold connect
    rw [if_neg (by omega), hfind, hfind']
  · intro hlen
    unfold connect
    rw [if_pos hlen]
  · unfold port_create
    rw [if_pos (Or.inl rfl)]

def longPath : String := String.mk (List.replicate 80 'a')

theorem claim_C8_witness :
    (connect emptyState "" 1000).1 = ERR_NOT_FOUND ∧
    (connect emptyState "com.android.ipc-unittest.conn.blah-blah" 1000).1 = ERR_NOT_FOUND ∧
    (connect emptyState longPath 1000).1 = ERR_INVALID_ARGS ∧
    (port_create emptyState "" 2 64 0).1 = ERR_INVALID_ARGS :=
  ⟨(claim_C8_connect_path_errors emptyState "" 1000 2 64 0).1 (by decide) (by decide),
   (claim_C8_connect_path_errors emptyState "com.android.ipc-unittest.conn.blah-blah"
      1000 2 64 0).1 (by decide) (by decide),
   (claim_C8_connect_path_errors emptyState longPath 1000 2 64 0).2.1 (by decide),
   (claim_C8_connect_path_errors emptyState "" 1000 2 64 0).2.2.1⟩

/- The self-connect scenario of run_connect_selfie_test. -/

def selfiePath : String := "com.android.ipc-unittest.main.selfie"

def sSelf1 : KState := (port_create emptyState selfiePath 2 MAX_PORT_BUF_SIZE 0).2

def sSelf2 : KState := (connect sSelf1 selfiePath 1000).2

def sSelf3 : KState := (connect sSelf2 selfiePath 0).2

def sSelf4 : KState := (accept sSelf3 0).2

def sSelf5 : KState := (accept sSelf4 0).2

/-- Claim C5: a single-threaded task connecting to its own port does not
deadlock: both self-connects (1s and zero timeout) time out; afterwards
`wait_any` reports the port (handle 0) connection-ready; accept then
yields `ERR_CHANNEL_CLOSED` exactly twice — once per abandoned pending
connection — and `ERR_NO_MSG` once none remain. -/
theorem claim_C5_selfie_no_deadlock :
    (port_create emptyState selfiePath 2 MAX_PORT_BUF_SIZE 0).1 = 0 ∧
    (connect sSelf1 selfiePath 1000).1 = ERR_TIMED_OUT ∧
    (connect sSelf2 selfiePath 0).1 = ERR_TIMED_OUT ∧
    wait_any sSelf3 (-1) =
      (1, some { handle := 0, event := IPC_HANDLE_POLL_READY, cookie := 0 }) ∧
    (accept sSelf3 0).1 = ERR_CHANNEL_CLOSED ∧
    (accept sSelf4 0).1 = ERR_CHANNEL_CLOSED ∧
    (accept sSelf5 0).1 = ERR_NO_MSG := by
  refine ⟨by decide, by decide, by decide, by decide, by decide, by decide, by decide⟩

/- The echo round trip of run_end_to_end_msg_test /
   run_read_msg_negative_test: a 64-byte message sent to the echo
   service and read back.  read_msg leaves the state untouched by
   construction (it returns only a code and bytes), so every read below
   happens on the same state sE4: reading does not consume the
   message. -/

def txData : List Nat := List.replicate 64 85

/-- The tx message: one 64-byte segment of 0x55 bytes. -/
def txMsg : IpcMsg :=
  { iov := some [{ base := some txData, len := 64 }], numIov := 1, numHandles := 0 }

/-- The rx scatter buffer: one 64-byte segment (0xaa-initialized). -/
def rxMsg : IpcMsg :=
  { iov := some [{ base := some (List.replicate 64 170), len := 64 }],
    numIov := 1, numHandles := 0 }

def sE1 : KState := (connect srvState echoPath 1000).2

def sE2 : KState := (send_msg sE1 0 (some txMsg)).2

def sE3 : KState := echoDeliver sE2 0

def sE4 : KState := (get_msg sE3 0).2.1

/-- The payload bytes of a message: all scatter segments concatenated,
exactly what send_msg copies into the kernel buffer. -/
def msgBytes (m : IpcMsg) : List Nat := ((segsOf m).map segData).flatten

/-- When every scatter segment points at `len` readable bytes (as C
guarantees for a valid iovec), the concatenated payload has exactly the
total scatter length. -/
theorem msgBytes_length {m : IpcMsg}
    (hseg : ∀ g ∈ segsOf m, (g.base.getD []).length = g.len) :
    (msgBytes m).length = totalLen m := by
  unfold msgBytes totalLen
  rw [List.length_flatten, List.map_map]
  congr 1
  apply List.map_congr_left
  intro g hg
  simp only [Function.comp_apply, segData, List.length_take, hseg g hg, Nat.min_self]

/-- A successful lookup means the handle is in range and its slot holds
the object. -/
theorem lookupSlot_ok_elim {s : KState} {h : Int} {sl : Slot}
    (hl : lookupSlot s h = .ok sl) :
    ¬(h < 0 ∨ (MAX_USER_HANDLES : Int) ≤ h) ∧ s.table.getD h.toNat none = some sl := by
  unfold lookupSlot at hl
  by_cases hg : h < 0 ∨ (MAX_USER_HANDLES : Int) ≤ h
  · rw [if_pos hg] at hl
    exact absurd hl (by simp)
  · rw [if_neg hg] at hl
    refine ⟨hg, ?_⟩
    cases heq : s.table.getD h.toNat none with
    | none =>
      rw [heq] at hl
      exact absurd hl (by simp)
    | some sl0 =>
      rw [heq] at hl
      injection hl with h'
      rw [h']

theorem getD_some_lt {l : List (Option Slot)} {i : Nat} {x : Slot}
    (h : l.getD i none = some x) : i < l.length := by
  by_contra hge
  rw [List.getD_eq_getElem?_getD, List.getElem?_eq_none (by omega)] at h
  exact absurd h (by simp)

/-- Updating the channel behind a live handle keeps the handle live with
the new channel (and the same cookie). -/
theorem lookupSlot_setChan {s : KState} {h : Int} {sl : Slot}
    (hl : lookupSlot s h = .ok sl) (c' : Chan) :
    lookupSlot (setChan s h.toNat c') h = .ok { sl with obj := .chan c' } := by
  obtain ⟨hg, hgd⟩ := lookupSlot_ok_elim hl
  have hlen := getD_some_lt hgd
  unfold setChan
  rw [hgd]
  unfold lookupSlot
  rw [if_neg hg]
  simp [List.getD, List.getElem?_set_self, hlen]

theorem getChan_of_lookup {s : KState} {h : Int} {sl : Slot} {c : Chan}
    (hl : lookupSlot s h = .ok sl) (hobj : sl.obj = .chan c) :
    getChan s h.toNat = some c := by
  obtain ⟨hg, hgd⟩ := lookupSlot_ok_elim hl
  unfold getChan
  rw [hgd]
  simp [hobj]

/-- Claim C6: round-trip.  For any message of any length L = totalLen
(any payload bytes, any valid scatter list whose segments point at
their declared lengths, L > 0) sent over any live quiescent channel and
echoed back: get_msg returns the fresh id and length L; read_msg with
offset 0 into any valid scatter buffer of capacity at least L returns
exactly L bytes identical to the bytes sent; read_msg with offset equal
to L fails `ERR_INVALID_ARGS`; reading does not consume the message
(read_msg leaves the state untouched, and put_msg of the same id still
succeeds on that same state after the reads); and once put_msg releases
an id, get_msg on that channel never returns that id again, after any
further sequence of channel events. -/
theorem claim_C6_round_trip :
    (∀ (s : KState) (h : Int) (sl : Slot) (c : Chan) (txm rxm : IpcMsg),
      lookupSlot s h = .ok sl → sl.obj = .chan c →
      c.inbound = [] → c.outbound = [] → c.sendBudget ≠ 0 →
      txm.numHandles = 0 → txm.iov.isNone = false →
      (segsOf txm).any segBad = false →
      (∀ g ∈ segsOf txm, (g.base.getD []).length = g.len) →
      0 < totalLen txm →
      rxm.numHandles = 0 → rxm.iov.isNone = false →
      (segsOf rxm).any segBad = false →
      totalLen txm ≤ totalLen rxm →
      (msgBytes txm).length = totalLen txm ∧
      (send_msg s h (some txm)).1 = (totalLen txm : Int) ∧
      (get_msg (echoDeliver (send_msg s h (some txm)).2 h.toNat) h).1 = NO_ERROR ∧
      (get_msg (echoDeliver (send_msg s h (some txm)).2 h.toNat) h).2.2 =
        some { id := c.nextId, len := totalLen txm } ∧
      read_msg (get_msg (echoDeliver (send_msg s h (some txm)).2 h.toNat) h).2.1 h
          c.nextId 0 (some rxm) = ((totalLen txm : Int), msgBytes txm) ∧
      (read_msg (get_msg (echoDeliver (send_msg s h (some txm)).2 h.toNat) h).2.1 h
          c.nextId (totalLen txm) (some rxm)).1 = ERR_INVALID_ARGS ∧
      (put_msg (get_msg (echoDeliver (send_msg s h (some txm)).2 h.toNat) h).2.1 h
          c.nextId).1 = NO_ERROR) ∧
    (∀ (c : Chan) (j : Nat) (mm : Msg) (evs : List ChanEvt) (m : Msg),
      wfChan c → findHeld c j = some mm →
      firstUnretrieved (applyEvts (removeMsg c j) evs) = some m → m.id ≠ j) := by
  constructor
  · intro s h sl c txm rxm hl hobj hinb houtb hbud htxh htxiov htxbad hseg hpos
      hrxh hrxiov hrxbad hcap
    obtain ⟨cin, cout, bud, pc, nid⟩ := c
    replace hinb : cin = [] := hinb
    replace houtb : cout = [] := houtb
    replace hbud : bud ≠ 0 := hbud
    subst hinb
    subst houtb
    have hdlen : (msgBytes txm).length = totalLen txm := msgBytes_length hseg
    have hsend : send_msg s h (some txm) =
        ((totalLen txm : Int),
         setChan s h.toNat ⟨[], [msgBytes txm], bud - 1, pc, nid⟩) := by
      simp [send_msg, hl, hobj, htxh, htxiov, htxbad, hbud, chanSend, msgBytes]
    have hl2 := lookupSlot_setChan hl (⟨[], [msgBytes txm], bud - 1, pc, nid⟩ : Chan)
    have hgc : getChan (setChan s h.toNat ⟨[], [msgBytes txm], bud - 1, pc, nid⟩) h.toNat =
        some ⟨[], [msgBytes txm], bud - 1, pc, nid⟩ := getChan_of_lookup hl2 rfl
    have hdeliver :
        echoDeliver (setChan s h.toNat ⟨[], [msgBytes txm], bud - 1, pc, nid⟩) h.toNat =
        setChan (setChan s h.toNat ⟨[], [msgBytes txm], bud - 1, pc, nid⟩) h.toNat
          ⟨[Msg.mk nid (msgBytes txm) false], [], bud - 1 + 1, pc, nid + 1⟩ := by
      unfold echoDeliver
      rw [hgc]
      simp [chanDeliver]
    have hl3 := lookupSlot_setChan hl2
      (⟨[Msg.mk nid (msgBytes txm) false], [], bud - 1 + 1, pc, nid + 1⟩ : Chan)
    have hfu : firstUnretrieved
        ⟨[Msg.mk nid (msgBytes txm) false], [], bud - 1 + 1, pc, nid + 1⟩ =
        some (Msg.mk nid (msgBytes txm) false) := rfl
    have hmark : markRetrieved
        ⟨[Msg.mk nid (msgBytes txm) false], [], bud - 1 + 1, pc, nid + 1⟩ nid =
        ⟨[Msg.mk nid (msgBytes txm) true], [], bud - 1 + 1, pc, nid + 1⟩ := by
      simp [markRetrieved]
    have hget : get_msg (setChan (setChan s h.toNat ⟨[], [msgBytes txm], bud - 1, pc, nid⟩)
          h.toNat ⟨[Msg.mk nid (msgBytes txm) false], [], bud - 1 + 1, pc, nid + 1⟩) h =
        (NO_ERROR,
         setChan (setChan (setChan s h.toNat ⟨[], [msgBytes txm], bud - 1, pc, nid⟩)
           h.toNat ⟨[Msg.mk nid (msgBytes txm) false], [], bud - 1 + 1, pc, nid + 1⟩)
           h.toNat ⟨[Msg.mk nid (msgBytes txm) true], [], bud - 1 + 1, pc, nid + 1⟩,
         some { id := nid, len := (msgBytes txm).length }) := by
      simp [get_msg, hl3, hfu, hmark]
    have hl4 := lookupSlot_setChan hl3
      (⟨[Msg.mk nid (msgBytes txm) true], [], bud - 1 + 1, pc, nid + 1⟩ : Chan)
    have hheld : findHeld
        ⟨[Msg.mk nid (msgBytes txm) true], [], bud - 1 + 1, pc, nid + 1⟩ nid =
        some (Msg.mk nid (msgBytes txm) true) := by
      simp [findHeld]
    have hnle : ¬((msgBytes txm).length ≤ 0) := by
      rw [hdlen]
      omega
    have htake : (msgBytes txm).take (totalLen rxm) = msgBytes txm :=
      List.take_of_length_le (by rw [hdlen]; exact hcap)
    have hle : (msgBytes txm).length ≤ totalLen txm := by
      rw [hdlen]
    refine ⟨hdlen, ?_, ?_, ?_, ?_, ?_, ?_⟩
    · rw [hsend]
    · simp only [hsend, hdeliver, hget]
    · simp only [hsend, hdeliver, hget]
      rw [hdlen]
    · simp only [hsend, hdeliver, hget]
      simp [read_msg, hl4, hheld, hrxh, hrxiov, hrxbad, hnle, htake, hdlen]
      intro h0
      exact absurd h0 (by omega)
    · simp only [hsend, hdeliver, hget]
      simp [read_msg, hl4, hheld, hrxh, hrxiov, hrxbad, hle]
    · simp only [hsend, hdeliver, hget]
      simp [put_msg, hl4, hheld]
  · intro c j mm evs m hwf hheld hfu
    exact (releasedId_applyEvts evs (releasedId_removeMsg hwf hheld)).2 m
      (firstUnretrieved_mem hfu)

/-- A well-formed channel holding id 0 (retrieved) and id 1 (pending). -/
def cW : Chan :=
  { inbound := [{ id := 0, data := [7], retrieved := true },
                { id := 1, data := [8], retrieved := false }],
    outbound := [], sendBudget := 1, peerClosed := false, nextId := 2 }

def echoChanSlot : Slot :=
  { obj := .chan { inbound := [], outbound := [], sendBudget := 8,
                   peerClosed := false, nextId := 0 },
    cookie := 0 }

theorem claim_C6_witness :
    read_msg sE4 0 0 0 (some rxMsg) = (64, txData) ∧
    (Msg.mk 1 [8] false).id ≠ 0 := by
  constructor
  · exact (claim_C6_round_trip.1 sE1 0 echoChanSlot
      ⟨[], [], 8, false, 0⟩ txMsg rxMsg rfl rfl rfl rfl (by decide) rfl rfl
      (by decide) (by decide) (by decide) rfl rfl (by decide)
      (by decide)).2.2.2.2.1
  · exact claim_C6_round_trip.2 cW 0 (Msg.mk 0 [7] true) [] (Msg.mk 1 [8] false)
      (by unfold wfChan; decide) (by decide) (by decide)

end IpcUnittest
